import Mathlib

/-!
Verification of the report aggregation and document-assembly engine of the
sit-council repository (backend/routes/Pdf.js, backend/models/Meeting.js,
backend/models/User.js).

JavaScript strings are modelled as `List Char` so that every operation the
routes perform (concatenation, split, take, upper-casing) is a structurally
recursive list function that the kernel can evaluate.  Dates are modelled as
`Int` timestamps; `Date` comparison in the source is numeric comparison of
timestamps.  The locale rendering done by `toLocaleDateString` is abstracted
as a deterministic injective function of the timestamp.  Purely graphical
PDF operations (the logo image, ruled lines, bar rectangles, x/y positions,
font sizes) are not part of the document model; the model keeps the ordered
sequence of emitted content items (text lines, page breaks, table header
rows, table body rows), which is what the specification's DocumentModel
describes.
-/

/-- Convert a Lean string literal to the `List Char` representation used for
JavaScript strings throughout this development. -/
def js (s : String) : List Char := s.toList

/-- Decimal rendering of a natural number, as a character list. -/
def natStr (n : Nat) : List Char := (Nat.repr n).toList

/-- Decimal rendering of an integer, as a character list. -/
def intStr (i : Int) : List Char := (Int.repr i).toList

/-- `s.charAt(0).toUpperCase() + s.slice(1)` from Pdf.js (used for meeting
type, meeting status, attendee status, action-item status). -/
def capitalizeJs (s : List Char) : List Char :=
  match s with
  | [] => []
  | c :: cs => c.toUpper :: cs

/-- JavaScript `a || b` specialised to strings that are known to be defined:
the fallback fires exactly when the first operand is the empty string. -/
def jsOr (s d : List Char) : List Char := if s = [] then d else s

/-- `item.task.substring(0, 50) + (item.task.length > 50 ? '...' : '')`
from the action-item table of Pdf.js. -/
def truncate50 (s : List Char) : List Char :=
  s.take 50 ++ (if s.length > 50 then js "..." else [])

/-- `formatDate` from Pdf.js: `'N/A'` for a missing date, otherwise a
deterministic rendering of the timestamp (`toLocaleDateString` abstracted). -/
def formatDate : Option Int → List Char
  | none => js "N/A"
  | some t => js "Date(" ++ intStr t ++ js ")"

/-- `getMonthName` from Pdf.js: `months[month - 1] || 'Unknown'`. -/
def getMonthName (month : Int) : List Char :=
  let months := [js "January", js "February", js "March", js "April",
    js "May", js "June", js "July", js "August", js "September",
    js "October", js "November", js "December"]
  if 1 ≤ month ∧ month ≤ 12 then months.getD (month - 1).toNat (js "Unknown")
  else js "Unknown"

/-- `String.prototype.split(sep)` for a single separator character: empty
fields are kept, and splitting the empty string yields `[""]`. -/
def splitChar (sep : Char) (l : List Char) : List (List Char) :=
  l.foldr
    (fun c acc =>
      if c = sep then [] :: acc
      else
        match acc with
        | t :: ts => (c :: t) :: ts
        | [] => [[c]])
    [[]]

/-- Splitting on a character predicate, with the same empty-field behaviour
as `splitChar`; used for the claim-side whitespace reading of the avatar
initials rule. -/
def splitPred (p : Char → Bool) (l : List Char) : List (List Char) :=
  l.foldr
    (fun c acc =>
      if p c then [] :: acc
      else
        match acc with
        | t :: ts => (c :: t) :: ts
        | [] => [[c]])
    [[]]

/-- Rounding of `num / den` to the nearest tenth, half away from zero, as an
integer number of tenths: the rounding performed by `Number.toFixed(1)` on a
non-negative value. -/
def roundTenths (num den : Nat) : Nat := (20 * num + den) / (2 * den)

/-- Rendering of a tenths count as a decimal string with exactly one
fractional digit, e.g. `750 ↦ "75.0"`: the formatting of `toFixed(1)`. -/
def fmtTenths (n : Nat) : List Char := natStr (n / 10) ++ js "." ++ natStr (n % 10)

/-- A user resolved by a `populate` projection (Pdf.js selects `name role`):
`id` is the underlying ObjectId rendered as a string. -/
structure UserRef where
  id : List Char
  name : List Char
  role : List Char
  deriving DecidableEq, Repr

/-- `attendeeSchema` from Meeting.js: user reference plus attendance status
(`pending | present | absent | late`).  `user` is `none` when the reference
cannot be resolved. -/
structure Attendee where
  user : Option UserRef
  status : List Char
  deriving DecidableEq, Repr

/-- `agendaItemSchema` from Meeting.js, restricted to the fields Pdf.js
reads. -/
structure AgendaItem where
  title : List Char
  presenter : Option (List Char)
  duration : Option Nat
  description : Option (List Char)
  status : List Char
  deriving DecidableEq, Repr

/-- `actionItemSchema` from Meeting.js, with `assignee` already resolved to
the referenced user's name by `populate` (absent when unresolved). -/
structure ActionItem where
  task : List Char
  assignee : Option (List Char)
  deadline : Option Int
  priority : List Char
  status : List Char
  deriving DecidableEq, Repr

/-- `minutes.nextMeeting` from Meeting.js. -/
structure NextMeeting where
  date : Option Int
  time : Option (List Char)
  location : Option (List Char)
  agenda : Option (List Char)
  deriving DecidableEq, Repr

/-- `minutes` embedded document from Meeting.js. -/
structure MinutesRec where
  summary : Option (List Char)
  decisions : List (List Char)
  actionItems : List ActionItem
  nextMeeting : Option NextMeeting
  deriving DecidableEq, Repr

/-- `meetingSchema` from Meeting.js, restricted to the fields Pdf.js reads.
`chairperson` and `minutesTaker` are the populated references (`none` when
unresolvable); `createdBy` is the creator's id string. -/
structure Meeting where
  id : List Char
  title : List Char
  mtype : List Char
  date : Int
  startTime : List Char
  endTime : List Char
  location : Option (List Char)
  chairperson : Option UserRef
  minutesTaker : Option UserRef
  objective : Option (List Char)
  agenda : List AgendaItem
  attendees : List Attendee
  minutes : Option MinutesRec
  status : List Char
  createdBy : List Char
  deriving DecidableEq, Repr

/-- The embedded `performance` block of userSchema (User.js).  The 0–5
`rating` is stored as an integer count of tenths so that the rendering of
`rating.toFixed(1)` is exact. -/
structure Performance where
  meetingsAttended : Nat
  tasksCompleted : Nat
  ratingTenths : Nat
  streak : Nat
  achievements : List (List Char)
  points : Nat
  deriving DecidableEq, Repr

/-- `userSchema` from User.js, restricted to the fields the PDF routes
read. -/
structure User where
  id : List Char
  name : List Char
  role : List Char
  studentId : Option (List Char)
  department : Option (List Char)
  joinDate : Option Int
  performance : Option Performance
  deriving DecidableEq, Repr

/-- An action item flattened into the monthly report's `allActionItems`
list (Pdf.js): annotated with its owning meeting title and with the
assignee already replaced by `'Unassigned'` when absent. -/
structure FlatItem where
  task : List Char
  meeting : List Char
  assignee : List Char
  deadline : Option Int
  status : List Char
  deriving DecidableEq, Repr

/-- The per-user derived attendance tuple computed by the monthly report
(Pdf.js `attendanceStats`). -/
structure AttendanceStat where
  name : List Char
  role : List Char
  totalMeetings : Nat
  attended : Nat
  attendanceRate : List Char
  deriving DecidableEq, Repr

/-- One entry of the renderer-agnostic document model: a text line, a page
break, a table header row, or a table body row. -/
inductive Item where
  | line (s : List Char)
  | pageBreak
  | tableHeader (cols : List (List Char))
  | tableRow (cells : List (List Char))
  deriving DecidableEq, Repr

/-- The overdue test of Pdf.js:
`item.deadline && new Date(item.deadline) < new Date() && item.status !== 'completed'`. -/
def isOverdue (deadline : Option Int) (status : List Char) (now : Int) : Bool :=
  match deadline with
  | none => false
  | some d => decide (d < now) && !(status == js "completed")

/-- The attendance-rate computation of Pdf.js:
`meetings.length > 0 ? (attended / total * 100).toFixed(1) : '0.0'`,
with `toFixed(1)` modelled exactly on the rational value. -/
def attendanceRate (attended total : Nat) : List Char :=
  if total > 0 then fmtTenths (roundTenths (attended * 100) total) else js "0.0"

/-- The avatar-initials computation of the register route (Auth.js) and of
`userSchema.methods.generateAvatar` (User.js):
`name.split(' ').map(n => n[0]).join('').toUpperCase().substring(0, 2)`.
A token's missing first character (`undefined` for an empty token) vanishes
in `join`, which `t.take 1 = []` models. -/
def avatarInitials (name : List Char) : List Char :=
  ((((splitChar ' ' name).map (fun t => t.take 1)).flatten).map Char.toUpper).take 2

/-- The claim-side reading of the initials rule with "splits on whitespace"
taken literally: tokens are maximal runs separated by any whitespace
character. -/
def avatarInitialsWhite (name : List Char) : List Char :=
  (((((splitPred Char.isWhitespace name).filter (fun t => !t.isEmpty)).map
      (fun t => t.take 1)).flatten).map Char.toUpper).take 2

/-- The initials rule with tokens separated by the space character only,
matching the source's `split(' ')`. -/
def avatarInitialsSpace (name : List Char) : List Char :=
  (((((splitChar ' ' name).filter (fun t => !t.isEmpty)).map
      (fun t => t.take 1)).flatten).map Char.toUpper).take 2

/-- The four status groups computed by the monthly report (Pdf.js):
`pending`, `in-progress` and `completed` filter on the stored status, while
`overdue` is recomputed from the deadline and the current time. -/
def taskStatusBreakdown (items : List FlatItem) (now : Int) :
    List FlatItem × List FlatItem × List FlatItem × List FlatItem :=
  (items.filter (fun i => i.status == js "pending"),
   items.filter (fun i => i.status == js "in-progress"),
   items.filter (fun i => i.status == js "completed"),
   items.filter (fun i => isOverdue i.deadline i.status now))

/-- Header of the meeting-minutes document (Pdf.js `/generate/:meetingId`). -/
def minutesHeaderSection : List Item :=
  [.line (js "SIT STUDENT COUNCIL"), .line (js "OFFICIAL MEETING MINUTES")]

/-- The MEETING DETAILS section.  An unresolved chairperson or minutes-taker
reference degrades to the placeholder `'Not specified'`, as does a missing
location. -/
def detailsSection (m : Meeting) : List Item :=
  [.line (js "MEETING DETAILS"),
   .line (js "Title: " ++ m.title),
   .line (js "Date: " ++ formatDate (some m.date)),
   .line (js "Type: " ++ capitalizeJs m.mtype),
   .line (js "Time: " ++ m.startTime ++ js " - " ++ m.endTime),
   .line (js "Location: " ++ (match m.location with | some l => l | none => js "Not specified")),
   .line (js "Status: " ++ capitalizeJs m.status),
   .line (js "Chairperson: " ++ (match m.chairperson with | some u => u.name | none => js "Not specified")),
   .line (js "Minutes Taker: " ++ (match m.minutesTaker with | some u => u.name | none => js "Not specified"))]

/-- The MEETING OBJECTIVES section, emitted only when an objective is
present. -/
def objectivesSection (m : Meeting) : List Item :=
  match m.objective with
  | some o => [.line (js "MEETING OBJECTIVES"), .line o]
  | none => []

/-- The two items emitted for one attendee: an unresolved user reference
degrades to `'Unknown'` (name) and `'Member'` (role). -/
def attendeeItems (i : Nat) (a : Attendee) : List Item :=
  [.line (natStr (i + 1) ++ js ". " ++
      (match a.user with | some u => u.name | none => js "Unknown") ++
      js " - " ++ (match a.user with | some u => u.role | none => js "Member")),
   .line (js "(" ++ capitalizeJs (jsOr a.status (js "pending")) ++ js ")")]

/-- The ATTENDEES section, on a fresh page, listing every attendee. -/
def attendeesSection (atts : List Attendee) : List Item :=
  Item.pageBreak :: .line (js "ATTENDEES") ::
    (atts.enum.map (fun p => attendeeItems p.1 p.2)).flatten

/-- The items emitted for one agenda entry. -/
def agendaItemLines (i : Nat) (it : AgendaItem) : List Item :=
  [.line (natStr (i + 1) ++ js ". " ++ it.title),
   .line (js "Presenter: " ++
      (match it.presenter with | some p => p | none => js "Not specified") ++
      js " | Duration: " ++ natStr (match it.duration with | some d => d | none => 15) ++
      js " mins | Status: " ++ jsOr it.status (js "pending"))] ++
  (match it.description with
   | some d => [.line (js "Description: " ++ d)]
   | none => [])

/-- The AGENDA ITEMS section, emitted only when the agenda is non-empty. -/
def agendaSection (ag : List AgendaItem) : List Item :=
  if ag.length > 0 then
    Item.pageBreak :: .line (js "AGENDA ITEMS") ::
      (ag.enum.map (fun p => agendaItemLines p.1 p.2)).flatten
  else []

/-- The minutes summary lines, emitted only when a summary is present. -/
def summaryLines : Option (List Char) → List Item
  | some s => [.line (js "Summary:"), .line s]
  | none => []

/-- The decisions list, emitted only when non-empty. -/
def decisionLines (ds : List (List Char)) : List Item :=
  if ds.length > 0 then
    Item.line (js "Decisions Made:") ::
      ds.enum.map (fun p => Item.line (natStr (p.1 + 1) ++ js ". " ++ p.2))
  else []

/-- One body row of the action-items table: task truncated to 50
characters, `'Unassigned'` for a missing assignee, `'N/A'` for a missing
deadline, status capitalised. -/
def actionItemRow (item : ActionItem) : Item :=
  .tableRow [truncate50 item.task,
    (match item.assignee with | some n => n | none => js "Unassigned"),
    jsOr (formatDate item.deadline) (js "N/A"),
    capitalizeJs item.status]

/-- The action-items table of the minutes section.  The source guards the
whole table with `if (actionItems && actionItems.length > 0)`, so nothing —
not even the header row — is emitted for an empty list. -/
def actionItemsSection (items : List ActionItem) : List Item :=
  if items.length > 0 then
    Item.line (js "Action Items:") ::
      .tableHeader [js "Task", js "Assignee", js "Deadline", js "Status"] ::
      items.map actionItemRow
  else []

/-- The NEXT MEETING section, emitted only when `minutes.nextMeeting` is
present. -/
def nextMeetingSection : Option NextMeeting → List Item
  | none => []
  | some next =>
    Item.pageBreak :: .line (js "NEXT MEETING") ::
      ([.line (js "Date: " ++ jsOr (formatDate next.date) (js "To be determined")),
        .line (js "Time: " ++ (match next.time with | some t => t | none => js "To be determined")),
        .line (js "Location: " ++ (match next.location with | some l => l | none => js "To be determined"))] ++
       (match next.agenda with
        | some a => [.line (js "Proposed Agenda:"), .line a]
        | none => []))

/-- The MEETING MINUTES section, emitted only when `meeting.minutes` is
present. -/
def minutesSection : Option MinutesRec → List Item
  | none => []
  | some mins =>
    Item.pageBreak :: .line (js "MEETING MINUTES") ::
      (summaryLines mins.summary ++ decisionLines mins.decisions ++
       actionItemsSection mins.actionItems ++ nextMeetingSection mins.nextMeeting)

/-- The APPROVALS / signatures page. -/
def approvalsSection (m : Meeting) : List Item :=
  Item.pageBreak :: .line (js "APPROVALS") ::
    [.line (js "Prepared by:"),
     .line (js "___________________________"),
     .line (match m.minutesTaker with | some u => u.name | none => js "Secretary"),
     .line (match m.minutesTaker with | some u => u.role | none => js "SIT Student Council"),
     .line (js "Approved by:"),
     .line (js "___________________________"),
     .line (match m.chairperson with | some u => u.name | none => js "Chairperson"),
     .line (match m.chairperson with | some u => u.role | none => js "SIT Student Council")]

/-- The minutes document footer (document id and generation timestamp; the
page-number counter is renderer state and is not part of the model). -/
def minutesFooterSection (m : Meeting) (now : Int) : List Item :=
  [.line (js "Document ID: SIT-MIN-" ++ m.id),
   .line (js "Generated: " ++ formatDate (some now))]

/-- The full meeting-minutes document, sections in the fixed source order. -/
def buildMeetingMinutes (m : Meeting) (now : Int) : List Item :=
  minutesHeaderSection ++ detailsSection m ++ objectivesSection m ++
    attendeesSection m.attendees ++ agendaSection m.agenda ++
    minutesSection m.minutes ++ approvalsSection m ++ minutesFooterSection m now

/-- The `/generate/:meetingId` route: 404 when the meeting does not exist
(before any document is produced), 403 when the caller is neither the
creator nor an Admin, otherwise the assembled document. -/
def generateRoute (findMeeting : List Char → Option Meeting) (mid : List Char)
    (caller : UserRef) (now : Int) : Except (Nat × List Char) (List Item) :=
  match findMeeting mid with
  | none => .error (404, js "Meeting not found")
  | some meeting =>
    if !(meeting.createdBy == caller.id) && !(caller.role == js "Admin") then
      .error (403, js "Not authorized to access this meeting")
    else
      .ok (buildMeetingMinutes meeting now)

/-- The five metric rows of the performance report; every missing field
falls back to 0 as in `performance.x || 0`. -/
def performanceMetricRows (p : Option Performance) : List Item :=
  [.tableRow [js "Meetings Attended",
      natStr (match p with | some q => q.meetingsAttended | none => 0)],
   .tableRow [js "Tasks Completed",
      natStr (match p with | some q => q.tasksCompleted | none => 0)],
   .tableRow [js "Performance Rating",
      fmtTenths (match p with | some q => q.ratingTenths | none => 0) ++ js "/5"],
   .tableRow [js "Current Streak",
      natStr (match p with | some q => q.streak | none => 0)],
   .tableRow [js "Achievement Points",
      natStr (match p with | some q => q.points | none => 0)]]

/-- The ACHIEVEMENTS section, emitted only when the stored achievements
list is non-empty. -/
def achievementsSection (p : Option Performance) : List Item :=
  match p with
  | none => []
  | some q =>
    if q.achievements.length > 0 then
      Item.line (js "ACHIEVEMENTS") ::
        q.achievements.enum.map (fun t => Item.line (natStr (t.1 + 1) ++ js ". " ++ t.2))
    else []

/-- The PERFORMANCE TREND section: the fixed illustrative six-month series
(the bar rectangles are graphics; the month labels are the emitted text). -/
def trendSection : List Item :=
  Item.pageBreak :: .line (js "PERFORMANCE TREND") ::
    .line (js "Monthly Performance Overview:") ::
    ([js "Jan", js "Feb", js "Mar", js "Apr", js "May", js "Jun"].map
      (fun m => Item.line (m ++ js ":")))

/-- The performance report footer (generation timestamp and system
line). -/
def performanceFooterSection (now : Int) : List Item :=
  [.line (js "Report Generated: " ++ formatDate (some now)),
   .line (js "SIT Student Council - Performance Management System")]

/-- The full member-performance document. -/
def buildPerformance (user : User) (now : Int) : List Item :=
  [Item.line (js "SIT STUDENT COUNCIL"), .line (js "PERFORMANCE REPORT"),
   .line (js "MEMBER INFORMATION"),
   .line (js "Name: " ++ user.name),
   .line (js "Role: " ++ user.role),
   .line (js "Student ID: " ++ (match user.studentId with | some s => s | none => js "N/A")),
   .line (js "Department: " ++ (match user.department with | some d => d | none => js "N/A")),
   .line (js "Join Date: " ++ formatDate user.joinDate),
   .line (js "PERFORMANCE METRICS")] ++
  performanceMetricRows user.performance ++
  achievementsSection user.performance ++
  trendSection ++
  performanceFooterSection now

/-- The `/performance/:userId` route: 403 when the caller is neither the
user nor an Admin (checked first, as in the source), then 404 when the user
does not exist, otherwise the assembled document. -/
def performanceRoute (findUser : List Char → Option User) (uid : List Char)
    (caller : UserRef) (now : Int) : Except (Nat × List Char) (List Item) :=
  if !(caller.id == uid) && !(caller.role == js "Admin") then
    .error (403, js "Not authorized")
  else
    match findUser uid with
    | none => .error (404, js "User not found")
    | some user => .ok (buildPerformance user now)

/-- Ascending order on meeting dates, the order requested by the monthly
report's store query `.sort('date')`. -/
def dateLE (a b : Meeting) : Prop := a.date ≤ b.date

instance : DecidableRel dateLE := fun a b => inferInstanceAs (Decidable (a.date ≤ b.date))

instance : IsTotal Meeting dateLE := ⟨fun a b => Int.le_total a.date b.date⟩

instance : IsTrans Meeting dateLE := ⟨fun _ _ _ h h2 => Int.le_trans h h2⟩

/-- The monthly report's meeting fetch:
`Meeting.find({ date: { $gte: startDate, $lte: endDate } }).sort('date')`.
The date filter is inclusive on both ends and the store returns the result
sorted by date ascending (modelled by a stable insertion sort). -/
def monthlyMeetings (store : List Meeting) (startD endD : Int) : List Meeting :=
  List.insertionSort dateLE
    (store.filter (fun m => decide (startD ≤ m.date) && decide (m.date ≤ endD)))

/-- `attendanceStats` from the monthly report: one tuple per user, counting
a meeting as attended when the user's id appears anywhere in its attendee
list, regardless of the recorded attendance status. -/
def attendanceStats (users : List User) (meetings : List Meeting) :
    List AttendanceStat :=
  users.map (fun user =>
    let userMeetings := meetings.filter (fun meeting =>
      meeting.attendees.any (fun att =>
        match att.user with
        | some r => r.id == user.id
        | none => false))
    { name := user.name, role := user.role,
      totalMeetings := meetings.length, attended := userMeetings.length,
      attendanceRate := attendanceRate userMeetings.length meetings.length })

/-- `allActionItems` of the monthly report: every action item of every
in-range meeting, annotated with the owning meeting title; a missing
assignee becomes `'Unassigned'` at flattening time. -/
def flattenActionItems (meetings : List Meeting) : List FlatItem :=
  (meetings.map (fun meeting =>
    match meeting.minutes with
    | some mins =>
      mins.actionItems.map (fun item =>
        { task := item.task, meeting := meeting.title,
          assignee := match item.assignee with | some n => n | none => js "Unassigned",
          deadline := item.deadline, status := item.status })
    | none => [])).flatten

/-- The monthly report footer (generation timestamp; the page-number
counter is renderer state). -/
def monthlyFooterSection (now : Int) : List Item :=
  [.line (js "Report Generated: " ++ formatDate (some now)),
   .line (js "Confidential - SIT Student Council Internal Use Only")]

/-- The monthly report body.  The route streams the header, executive
summary, meetings summary, attendance table, the action-items summary
(when the flattened list is non-empty) and the Recommendations heading,
and then evaluates the `achievements` array literal, whose second element
reads `completed` (Pdf.js:594) — a `const` block-scoped to
`if (allActionItems.length > 0)` (Pdf.js:552-580) and therefore out of
scope at that read whether or not the block ran (`overdue` at Pdf.js:608
likewise).  Every monthly build thus throws
`ReferenceError: completed is not defined`; the request fails with a 500
and the items streamed before the throw never form a finished document,
so the build result is the error alone. -/
def monthlyBody (_meetings : List Meeting) (_users : List User)
    (_startD _endD _year _month : Int) (_caller : UserRef) (_now : Int) :
    Except (List Char) (List Item) :=
  Except.error (js "ReferenceError: completed is not defined")

/-- The monthly document as the route would assemble it: body, then
footer.  Since the body always fails, the footer append is unreachable and
the result is the body's error. -/
def monthlyReportDoc (meetings : List Meeting) (users : List User)
    (startD endD year month : Int) (caller : UserRef) (now : Int) :
    Except (List Char) (List Item) :=
  (monthlyBody meetings users startD endD year month caller now).map
    (fun items => items ++ monthlyFooterSection now)

/-- The `/monthly-report/:year/:month` route after its role guard: fetch
the in-range meetings (sorted by date) and the non-Guest users, then build
the document. -/
def monthlyReportRoute (store : List Meeting) (allUsers : List User)
    (startD endD year month : Int) (caller : UserRef) (now : Int) :
    Except (List Char) (List Item) :=
  monthlyReportDoc (monthlyMeetings store startD endD)
    (allUsers.filter (fun u => !(u.role == js "Guest")))
    startD endD year month caller now

/-- The list of table-header column lists occurring in a document, in
order. -/
def headerCols : Item → Option (List (List Char))
  | .tableHeader cols => some cols
  | _ => none

/-- All table-header rows of a document. -/
def tableHeaders (l : List Item) : List (List (List Char)) :=
  l.filterMap headerCols

/-- A minimal meeting record used as the base of the concrete test data. -/
def baseMeeting : Meeting :=
  { id := js "m0", title := js "Weekly Sync", mtype := js "regular", date := 0,
    startTime := js "10:00", endTime := js "11:00", location := none,
    chairperson := none, minutesTaker := none, objective := none,
    agenda := [], attendees := [], minutes := some ⟨none, [], [], none⟩,
    status := js "completed", createdBy := js "u0" }

/-- A meeting whose minutes carry an empty action-item list. -/
def emptyItemsMeeting : Meeting :=
  { baseMeeting with minutes := some ⟨none, [], [], none⟩ }

/-- A concrete action item with an assignee, a deadline and status pending. -/
def sampleItem : ActionItem :=
  { task := js "Book the hall", assignee := some (js "Bob"), deadline := some 7,
    priority := js "medium", status := js "pending" }

/-- Minutes holding exactly `sampleItem`. -/
def sampleMins : MinutesRec := ⟨none, [], [sampleItem], none⟩

/-- A meeting whose minutes carry exactly one action item. -/
def oneItemMeeting : Meeting := { baseMeeting with minutes := some sampleMins }

/-- An attendee whose user reference cannot be resolved. -/
def ghostAttendee : Attendee := ⟨none, js "present"⟩

/-- An action item with no assignee and no deadline. -/
def orphanItem : ActionItem :=
  { task := js "Follow up", assignee := none, deadline := none,
    priority := js "low", status := js "pending" }

/-- A meeting exercising every unresolved-reference fallback at once:
no chairperson, no minutes taker, an unresolved attendee, and an
unassigned action item. -/
def unresolvedMeeting : Meeting :=
  { baseMeeting with
    attendees := [ghostAttendee]
    minutes := some ⟨none, [], [orphanItem], none⟩ }

/-- Alice's populated reference, used by the attendance scenario. -/
def aliceRef : UserRef := ⟨js "u1", js "Alice", js "Member"⟩

/-- Alice's user record. -/
def aliceUser : User :=
  { id := js "u1", name := js "Alice", role := js "Member", studentId := none,
    department := none, joinDate := none, performance := none }

/-- The four meetings of the attendance scenario: Alice attends the first
three. -/
def fourMeetings : List Meeting :=
  [{ baseMeeting with id := js "m1", date := 1, attendees := [⟨some aliceRef, js "present"⟩] },
   { baseMeeting with id := js "m2", date := 2, attendees := [⟨some aliceRef, js "late"⟩] },
   { baseMeeting with id := js "m3", date := 3, attendees := [⟨some aliceRef, js "absent"⟩] },
   { baseMeeting with id := js "m4", date := 4, attendees := [] }]

/-- The administrator identity used as the report caller in the concrete
scenarios. -/
def demoCaller : UserRef := ⟨js "a1", js "Ada Admin", js "Admin"⟩

/-- A store of two in-range meetings listed out of date order. -/
def unsortedStore : List Meeting :=
  [{ baseMeeting with id := js "mB", title := js "Second", date := 5 },
   { baseMeeting with id := js "mA", title := js "First", date := 1 }]

/-- A flattened action item whose stored status is the stale `'overdue'`
and that has no deadline: it falls in none of the four monthly groups. -/
def staleOverdueFlat : FlatItem :=
  { task := js "Stale", meeting := js "Weekly Sync", assignee := js "Unassigned",
    deadline := none, status := js "overdue" }

/-- A flattened action item with stored status pending. -/
def pendingFlat : FlatItem :=
  { task := js "Fresh", meeting := js "Weekly Sync", assignee := js "Bob",
    deadline := some 3, status := js "pending" }
theorem tableHeaders_append (a b : List Item) :
    tableHeaders (a ++ b) = tableHeaders a ++ tableHeaders b :=
  List.filterMap_append a b headerCols

theorem tableHeaders_cons_line (s : List Char) (l : List Item) :
    tableHeaders (Item.line s :: l) = tableHeaders l := by
  simp [tableHeaders, List.filterMap_cons, headerCols]

theorem tableHeaders_cons_pageBreak (l : List Item) :
    tableHeaders (Item.pageBreak :: l) = tableHeaders l := by
  simp [tableHeaders, List.filterMap_cons, headerCols]

theorem tableHeaders_cons_row (c : List (List Char)) (l : List Item) :
    tableHeaders (Item.tableRow c :: l) = tableHeaders l := by
  simp [tableHeaders, List.filterMap_cons, headerCols]

theorem tableHeaders_cons_header (c : List (List Char)) (l : List Item) :
    tableHeaders (Item.tableHeader c :: l) = c :: tableHeaders l := by
  simp [tableHeaders, List.filterMap_cons, headerCols]

theorem mem_tableHeaders_iff (c : List (List Char)) (l : List Item) :
    Item.tableHeader c ∈ l ↔ c ∈ tableHeaders l := by
  simp only [tableHeaders, List.mem_filterMap]
  constructor
  · intro h
    exact ⟨Item.tableHeader c, h, rfl⟩
  · rintro ⟨x, hx, he⟩
    cases x <;> simp only [headerCols, Option.some.injEq,
      reduceCtorEq] at he
    cases he
    exact hx

theorem tableHeaders_flatten {α : Type} (l : List α) (f : α → List Item)
    (hf : ∀ x, tableHeaders (f x) = []) :
    tableHeaders ((l.map f).flatten) = [] := by
  induction l with
  | nil => rfl
  | cons a t ih =>
    simp only [List.map_cons, List.flatten_cons, tableHeaders_append, hf a, ih,
      List.nil_append]

theorem tableHeaders_map_none {α : Type} (l : List α) (f : α → Item)
    (hf : ∀ x, headerCols (f x) = none) :
    tableHeaders (l.map f) = [] := by
  induction l with
  | nil => rfl
  | cons a t ih =>
    simp only [List.map_cons, tableHeaders, List.filterMap_cons, hf a]
    exact ih

theorem th_minutesHeader : tableHeaders minutesHeaderSection = [] := rfl

theorem th_details (m : Meeting) : tableHeaders (detailsSection m) = [] := rfl

theorem th_objectives (m : Meeting) : tableHeaders (objectivesSection m) = [] := by
  cases h : m.objective <;> simp only [objectivesSection, h] <;> rfl

theorem th_attendeeItems (i : Nat) (a : Attendee) :
    tableHeaders (attendeeItems i a) = [] := rfl

theorem th_attendees (atts : List Attendee) :
    tableHeaders (attendeesSection atts) = [] := by
  simp only [attendeesSection, tableHeaders_cons_pageBreak, tableHeaders_cons_line]
  exact tableHeaders_flatten _ _ (fun p => th_attendeeItems p.1 p.2)

theorem th_agendaItemLines (i : Nat) (it : AgendaItem) :
    tableHeaders (agendaItemLines i it) = [] := by
  cases h : it.description <;> simp only [agendaItemLines, h] <;> rfl

theorem th_agenda (ag : List AgendaItem) :
    tableHeaders (agendaSection ag) = [] := by
  unfold agendaSection
  split
  · simp only [tableHeaders_cons_pageBreak, tableHeaders_cons_line]
    exact tableHeaders_flatten _ _ (fun p => th_agendaItemLines p.1 p.2)
  · rfl

theorem th_summaryLines (o : Option (List Char)) :
    tableHeaders (summaryLines o) = [] := by
  cases o <;> rfl

theorem th_decisionLines (ds : List (List Char)) :
    tableHeaders (decisionLines ds) = [] := by
  unfold decisionLines
  split
  · simp only [tableHeaders_cons_line]
    exact tableHeaders_map_none _ _ (fun p => rfl)
  · rfl

theorem th_actionItemsSection (items : List ActionItem) :
    tableHeaders (actionItemsSection items) =
      (if items.length > 0 then
        [[js "Task", js "Assignee", js "Deadline", js "Status"]]
      else []) := by
  unfold actionItemsSection
  split
  · simp only [tableHeaders_cons_line, tableHeaders_cons_header]
    rw [tableHeaders_map_none items actionItemRow (fun it => rfl)]
  · rfl

theorem th_nextMeeting (o : Option NextMeeting) :
    tableHeaders (nextMeetingSection o) = [] := by
  cases o with
  | none => rfl
  | some next => cases h : next.agenda <;> simp only [nextMeetingSection, h] <;> rfl

theorem th_approvals (m : Meeting) : tableHeaders (approvalsSection m) = [] := rfl

theorem th_minutesFooter (m : Meeting) (now : Int) :
    tableHeaders (minutesFooterSection m now) = [] := rfl

theorem th_minutesSection (o : Option MinutesRec) :
    tableHeaders (minutesSection o) =
      (match o with
       | some mins =>
         if mins.actionItems.length > 0 then
           [[js "Task", js "Assignee", js "Deadline", js "Status"]]
         else []
       | none => []) := by
  cases o with
  | none => rfl
  | some mins =>
    simp only [minutesSection, tableHeaders_cons_pageBreak, tableHeaders_cons_line,
      tableHeaders_append, th_summaryLines, th_decisionLines,
      th_actionItemsSection, th_nextMeeting]
    simp

theorem tableHeaders_build (m : Meeting) (now : Int) :
    tableHeaders (buildMeetingMinutes m now) =
      (match m.minutes with
       | some mins =>
         if mins.actionItems.length > 0 then
           [[js "Task", js "Assignee", js "Deadline", js "Status"]]
         else []
       | none => []) := by
  unfold buildMeetingMinutes
  rw [tableHeaders_append, tableHeaders_append, tableHeaders_append,
    tableHeaders_append, tableHeaders_append, tableHeaders_append,
    tableHeaders_append, th_minutesHeader, th_details, th_objectives,
    th_attendees, th_agenda, th_minutesSection, th_approvals, th_minutesFooter]
  simp

theorem mem_build_of_mem_details {m : Meeting} {now : Int} {x : Item}
    (h : x ∈ detailsSection m) : x ∈ buildMeetingMinutes m now := by
  simp only [buildMeetingMinutes, List.mem_append]
  tauto

theorem mem_build_of_mem_attendees {m : Meeting} {now : Int} {x : Item}
    (h : x ∈ attendeesSection m.attendees) : x ∈ buildMeetingMinutes m now := by
  simp only [buildMeetingMinutes, List.mem_append]
  tauto

theorem mem_build_of_mem_minutes {m : Meeting} {now : Int} {x : Item}
    (h : x ∈ minutesSection m.minutes) : x ∈ buildMeetingMinutes m now := by
  simp only [buildMeetingMinutes, List.mem_append]
  tauto

theorem actionItemRow_mem_section {it : ActionItem} {items : List ActionItem}
    (h : it ∈ items) : actionItemRow it ∈ actionItemsSection items := by
  unfold actionItemsSection
  have hlen : items.length > 0 := List.length_pos.mpr (List.ne_nil_of_mem h)
  rw [if_pos hlen]
  exact List.mem_cons_of_mem _ (List.mem_cons_of_mem _ (List.mem_map_of_mem _ h))

theorem actionItemRow_mem_build {m : Meeting} {mins : MinutesRec}
    {it : ActionItem} {now : Int} (hm : m.minutes = some mins)
    (h : it ∈ mins.actionItems) : actionItemRow it ∈ buildMeetingMinutes m now := by
  apply mem_build_of_mem_minutes
  rw [hm]
  simp only [minutesSection]
  refine List.mem_cons_of_mem _ (List.mem_cons_of_mem _ ?_)
  simp only [List.mem_append]
  exact Or.inl (Or.inr (actionItemRow_mem_section h))

/-- Claim C5 (confirmed): `isOverdue(deadline, status, now)` is true iff the
deadline is present, earlier than `now`, and the status is not
`"completed"`; in particular it is false whenever the status is
`"completed"`, regardless of the deadline. -/
theorem isOverdue_characterization (deadline : Option Int) (status : List Char)
    (now : Int) :
    (isOverdue deadline status now = true ↔
      ∃ d, deadline = some d ∧ d < now ∧ status ≠ js "completed") ∧
    (status = js "completed" → isOverdue deadline status now = false) := by
  constructor
  · cases deadline with
    | none => simp [isOverdue]
    | some d => simp [isOverdue, and_assoc]
  · intro h
    cases deadline <;> simp [isOverdue, h]

/-- Witness for C5: a completed item with a past deadline is not overdue. -/
theorem isOverdue_characterization_witness :
    isOverdue (some 3) (js "completed") 5 = false :=
  (isOverdue_characterization (some 3) (js "completed") 5).2 rfl

/-- First characters of tokens are unaffected by dropping empty tokens,
since an empty token contributes no first character. -/
theorem flatten_take_one_filter (ts : List (List Char)) :
    ((ts.filter (fun t => !t.isEmpty)).map (fun t => t.take 1)).flatten =
      (ts.map (fun t => t.take 1)).flatten := by
  induction ts with
  | nil => rfl
  | cons a t ih =>
    cases a with
    | nil => simpa [List.filter_cons] using ih
    | cons c cs => simpa [List.filter_cons] using ih

/-- The source initials computation agrees pointwise with the space-token
reading: split on the space character, keep non-empty tokens, take each
token's first character, upper-case, truncate to two characters. -/
theorem avatarInitials_space_agree (name : List Char) :
    avatarInitials name = avatarInitialsSpace name := by
  unfold avatarInitials avatarInitialsSpace
  rw [flatten_take_one_filter]

/-- Claim C9 (corrected): `avatarInitials` tokenises on the space character
(not on all whitespace), takes each token's first character, upper-cases
and truncates to at most two characters, and the three specified examples
hold, including the empty name returning the empty string without
throwing. -/
theorem avatarInitials_space_rule :
    (∀ name, avatarInitials name = avatarInitialsSpace name) ∧
    avatarInitials (js "") = js "" ∧
    avatarInitials (js "Ada Lovelace") = js "AL" ∧
    avatarInitials (js "Madonna") = js "M" :=
  ⟨avatarInitials_space_agree, by decide, by decide, by decide⟩

/-- Counterexample for C9: on a tab-separated name the source computation
(split on the space character only) differs from splitting on whitespace. -/
theorem avatarInitials_whitespace_cex :
    avatarInitials (js "Ada\tLovelace") = js "A" ∧
    avatarInitialsWhite (js "Ada\tLovelace") = js "AL" ∧
    avatarInitials (js "Ada\tLovelace") ≠ avatarInitialsWhite (js "Ada\tLovelace") := by
  decide

/-- The decimal rendering of a single digit has length one. -/
theorem natStr_digit_length (k : Nat) (h : k < 10) : (natStr k).length = 1 := by
  interval_cases k <;> decide

/-- Claim C4 (confirmed): `attendanceRate` returns `"0.0"` when the total
is zero; otherwise it returns `attended/total*100` rounded to the nearest
tenth (half up, the `toFixed(1)` rounding, characterised by the bracketing
inequalities) formatted with exactly one fractional digit; and in the
four-meeting scenario where Alice attends three, her stat carries rate
`"75.0"`. -/
theorem attendanceRate_rounding :
    (∀ a, attendanceRate a 0 = js "0.0") ∧
    (∀ a t, 0 < t → ∃ n : Nat,
      2 * t * n ≤ 2000 * a + t ∧ 2000 * a + t < 2 * t * n + 2 * t ∧
      attendanceRate a t = natStr (n / 10) ++ js "." ++ natStr (n % 10) ∧
      (natStr (n % 10)).length = 1) ∧
    attendanceStats [aliceUser] fourMeetings =
      [{ name := js "Alice", role := js "Member", totalMeetings := 4,
         attended := 3, attendanceRate := js "75.0" }] := by
  refine ⟨fun a => rfl, fun a t ht => ?_, by decide⟩
  have hX : 20 * (a * 100) + t = 2000 * a + t := by ring
  have hn : roundTenths (a * 100) t = (2000 * a + t) / (2 * t) := by
    unfold roundTenths
    rw [hX]
  refine ⟨(2000 * a + t) / (2 * t), ?_, ?_, ?_,
    natStr_digit_length _ (Nat.mod_lt _ (by omega))⟩
  · calc 2 * t * ((2000 * a + t) / (2 * t))
        = (2000 * a + t) / (2 * t) * (2 * t) := by ring
      _ ≤ 2000 * a + t := Nat.div_mul_le_self _ _
  · calc 2000 * a + t
        < ((2000 * a + t) / (2 * t) + 1) * (2 * t) :=
          (Nat.div_lt_iff_lt_mul (by omega)).mp (Nat.lt_succ_self _)
      _ = 2 * t * ((2000 * a + t) / (2 * t)) + 2 * t := by ring
  · unfold attendanceRate
    rw [if_pos ht, hn]
    rfl

/-- Witness for C4: the rounding characterisation at `attended = 2`,
`total = 3` (the spec's `"66.7"` example shape). -/
theorem attendanceRate_rounding_witness :
    ∃ n : Nat, 2 * 3 * n ≤ 2000 * 2 + 3 ∧ 2000 * 2 + 3 < 2 * 3 * n + 2 * 3 ∧
      attendanceRate 2 3 = natStr (n / 10) ++ js "." ++ natStr (n % 10) ∧
      (natStr (n % 10)).length = 1 :=
  attendanceRate_rounding.2.1 2 3 (by decide)

/-- For items whose stored status lies in the schema's enum, the three
stored-status groups plus the stored-`'overdue'` remainder partition the
list. -/
theorem four_filter_sum (items : List FlatItem)
    (h : ∀ i ∈ items, i.status = js "pending" ∨ i.status = js "in-progress" ∨
      i.status = js "completed" ∨ i.status = js "overdue") :
    (items.filter (fun i => i.status == js "pending")).length +
      (items.filter (fun i => i.status == js "in-progress")).length +
      (items.filter (fun i => i.status == js "completed")).length +
      (items.filter (fun i => i.status == js "overdue")).length = items.length := by
  induction items with
  | nil => rfl
  | cons a t ih =>
    have ha := h a (List.mem_cons_self a t)
    have iht := ih (fun i hi => h i (List.mem_cons_of_mem a hi))
    rcases ha with h1 | h1 | h1 | h1 <;>
      simp +decide [List.filter_cons, h1] <;> omega

/-- Claim C3 (corrected): with every stored status inside the schema enum
`pending | in-progress | completed | overdue`, the `pending`, `in-progress`
and `completed` group sizes plus the number of items whose *stored* status
is `'overdue'` sum to the input length; the recomputed `overdue` group of
`taskStatusBreakdown` is not the fourth class of a partition. -/
theorem taskStatusBreakdown_stored_partition (items : List FlatItem) (now : Int)
    (h : ∀ i ∈ items, i.status = js "pending" ∨ i.status = js "in-progress" ∨
      i.status = js "completed" ∨ i.status = js "overdue") :
    (taskStatusBreakdown items now).1.length +
      (taskStatusBreakdown items now).2.1.length +
      (taskStatusBreakdown items now).2.2.1.length +
      (items.filter (fun i => i.status == js "overdue")).length = items.length := by
  simpa only [taskStatusBreakdown] using four_filter_sum items h

/-- Witness for C3: the stored-status partition on a two-item list holding
one pending item and one stale stored-overdue item. -/
theorem taskStatusBreakdown_stored_partition_witness :
    (taskStatusBreakdown [pendingFlat, staleOverdueFlat] 0).1.length +
      (taskStatusBreakdown [pendingFlat, staleOverdueFlat] 0).2.1.length +
      (taskStatusBreakdown [pendingFlat, staleOverdueFlat] 0).2.2.1.length +
      ([pendingFlat, staleOverdueFlat].filter
        (fun i => i.status == js "overdue")).length =
      ([pendingFlat, staleOverdueFlat] : List FlatItem).length :=
  taskStatusBreakdown_stored_partition [pendingFlat, staleOverdueFlat] 0 (by decide)

/-- Counterexample for C3: a single item with stale stored status
`'overdue'` and no deadline falls in none of the four groups, so the four
group sizes sum to 0, not to the list length 1. -/
theorem taskStatusBreakdown_sum_cex :
    ¬ ((taskStatusBreakdown [staleOverdueFlat] 0).1.length +
        (taskStatusBreakdown [staleOverdueFlat] 0).2.1.length +
        (taskStatusBreakdown [staleOverdueFlat] 0).2.2.1.length +
        (taskStatusBreakdown [staleOverdueFlat] 0).2.2.2.length =
        ([staleOverdueFlat] : List FlatItem).length) := by decide

/-- Claim C1 (code_bug): when the date range holds no meetings the
flattened action-item list is empty and the monthly build fails with
`ReferenceError: completed is not defined` instead of completing the
document: the Recommendations bullets read `completed`/`overdue`, names
block-scoped to the skipped `if (allActionItems.length > 0)` block and
unavailable at that read. -/
theorem monthly_zero_meetings_reference_error (store : List Meeting)
    (allUsers : List User) (startD endD year month : Int) (caller : UserRef)
    (now : Int) (h : monthlyMeetings store startD endD = []) :
    monthlyReportRoute store allUsers startD endD year month caller now =
      Except.error (js "ReferenceError: completed is not defined") := by
  unfold monthlyReportRoute
  rw [h]
  rfl

/-- Witness for C1: the empty store has no in-range meetings, and the
monthly build for January 2025 fails with the ReferenceError. -/
theorem monthly_zero_meetings_witness :
    monthlyReportRoute [] [aliceUser] 0 10 2025 1 demoCaller 0 =
      Except.error (js "ReferenceError: completed is not defined") :=
  monthly_zero_meetings_reference_error [] [aliceUser] 0 10 2025 1 demoCaller 0 rfl

/-- Claim C10 (confirmed): the monthly meeting fetch sorts the in-range
meetings by date ascending before any section is built, so any two
consecutive entries of the list feeding the Meetings Summary satisfy
`date i ≤ date (i+1)`. -/
theorem monthly_meetings_sorted (store : List Meeting) (startD endD : Int)
    (i : Nat) (h : i + 1 < (monthlyMeetings store startD endD).length) :
    ((monthlyMeetings store startD endD).get ⟨i, Nat.lt_of_succ_lt h⟩).date ≤
      ((monthlyMeetings store startD endD).get ⟨i + 1, h⟩).date := by
  have hs : List.Sorted dateLE (monthlyMeetings store startD endD) := by
    unfold monthlyMeetings
    exact List.sorted_insertionSort dateLE _
  exact hs.rel_get_of_lt (Nat.lt_succ_self i)

/-- Witness for C10: a store listing the date-5 meeting before the date-1
meeting is re-ordered by the fetch. -/
theorem monthly_meetings_sorted_witness :
    ((monthlyMeetings unsortedStore 0 10).get ⟨0, by decide⟩).date ≤
      ((monthlyMeetings unsortedStore 0 10).get ⟨1, by decide⟩).date :=
  monthly_meetings_sorted unsortedStore 0 10 0 (by decide)

/-- Claim C7 (confirmed): a meeting-minutes request for a missing meeting
id, and a performance request (by an authorised caller) for a missing user
id, both fail with the 404 NotFound response and return no document
content. -/
theorem primary_not_found_fails :
    (∀ (findMeeting : List Char → Option Meeting) (mid : List Char)
        (caller : UserRef) (now : Int), findMeeting mid = none →
        generateRoute findMeeting mid caller now =
          Except.error (404, js "Meeting not found")) ∧
    (∀ (findUser : List Char → Option User) (uid : List Char)
        (caller : UserRef) (now : Int),
        (caller.id = uid ∨ caller.role = js "Admin") → findUser uid = none →
        performanceRoute findUser uid caller now =
          Except.error (404, js "User not found")) := by
  constructor
  · intro findMeeting mid caller now h
    unfold generateRoute
    rw [h]
  · intro findUser uid caller now hperm h
    unfold performanceRoute
    have hcond : (!(caller.id == uid) && !(caller.role == js "Admin")) = false := by
      rcases hperm with h1 | h1 <;> simp [h1]
    rw [hcond]
    simp [h]

/-- Witness for C7: concrete lookups that always miss. -/
theorem primary_not_found_fails_witness :
    generateRoute (fun _ => none) (js "m404") demoCaller 0 =
      Except.error (404, js "Meeting not found") ∧
    performanceRoute (fun _ => none) (js "u404") demoCaller 0 =
      Except.error (404, js "User not found") :=
  ⟨primary_not_found_fails.1 (fun _ => none) (js "m404") demoCaller 0 rfl,
   primary_not_found_fails.2 (fun _ => none) (js "u404") demoCaller 0
     (Or.inr rfl) rfl⟩


/-- Claim C2 (corrected): the meeting-minutes builder emits the
action-items table header exactly when the minutes are present and the
action-item list is non-empty — for an empty list the whole table,
header row included, is omitted — and whenever the table is emitted it
carries one unmodified row per action item. -/
theorem actionItems_table_emission (m : Meeting) (now : Int) :
    (Item.tableHeader [js "Task", js "Assignee", js "Deadline", js "Status"] ∈
        buildMeetingMinutes m now ↔
      ∃ mins, m.minutes = some mins ∧ mins.actionItems ≠ []) ∧
    (∀ mins, m.minutes = some mins → ∀ it ∈ mins.actionItems,
      actionItemRow it ∈ buildMeetingMinutes m now) := by
  constructor
  · rw [mem_tableHeaders_iff, tableHeaders_build]
    cases hm : m.minutes with
    | none => simp
    | some mins =>
      by_cases hlen : mins.actionItems.length > 0
      · simp [hlen, List.length_pos]
        exact List.length_pos.mp hlen
      · simp only [hlen, if_false, List.not_mem_nil, false_iff, not_exists,
          not_and, Option.some.injEq]
        intro mins' he
        cases he
        intro hne
        exact hne (List.length_eq_zero.mp (by omega))
  · intro mins hm it hit
    exact actionItemRow_mem_build hm hit

/-- Counterexample for C2: for a meeting whose minutes hold an empty
action-item list, the built document contains no action-items table header
at all. -/
theorem actionItems_table_header_cex :
    Item.tableHeader [js "Task", js "Assignee", js "Deadline", js "Status"] ∉
      buildMeetingMinutes emptyItemsMeeting 0 := by decide

/-- Witness for C2: with one action item the header and the item's row are
both emitted. -/
theorem actionItems_table_emission_witness :
    Item.tableHeader [js "Task", js "Assignee", js "Deadline", js "Status"] ∈
      buildMeetingMinutes oneItemMeeting 0 ∧
    actionItemRow sampleItem ∈ buildMeetingMinutes oneItemMeeting 0 :=
  ⟨(actionItems_table_emission oneItemMeeting 0).1.mpr ⟨sampleMins, rfl, by decide⟩,
   (actionItems_table_emission oneItemMeeting 0).2 sampleMins rfl sampleItem
     (by decide)⟩

/-- Claim C6 (confirmed): unresolvable secondary references never fail the
meeting-minutes build — the builder is total and substitutes the documented
placeholders: `'Not specified'` for a missing chairperson or minutes taker,
`'Unknown'` (with role `'Member'`) for an unresolved attendee user, and
`'Unassigned'` for a missing assignee in the action-items table row. -/
theorem minutes_reference_fallbacks (m : Meeting) (now : Int) :
    (m.chairperson = none →
      Item.line (js "Chairperson: Not specified") ∈ buildMeetingMinutes m now) ∧
    (m.minutesTaker = none →
      Item.line (js "Minutes Taker: Not specified") ∈ buildMeetingMinutes m now) ∧
    (∀ p ∈ m.attendees.enum, p.2.user = none →
      Item.line (natStr (p.1 + 1) ++ js ". Unknown - Member") ∈
        buildMeetingMinutes m now) ∧
    (∀ mins, m.minutes = some mins → ∀ it ∈ mins.actionItems, it.assignee = none →
      Item.tableRow [truncate50 it.task, js "Unassigned",
        jsOr (formatDate it.deadline) (js "N/A"), capitalizeJs it.status] ∈
        buildMeetingMinutes m now) := by
  refine ⟨?_, ?_, ?_, ?_⟩
  · intro h
    apply mem_build_of_mem_details
    have he : Item.line (js "Chairperson: Not specified") =
        Item.line (js "Chairperson: " ++
          (match m.chairperson with | some u => u.name | none => js "Not specified")) := by
      rw [h]
      decide
    rw [he]
    simp [detailsSection]
  · intro h
    apply mem_build_of_mem_details
    have he : Item.line (js "Minutes Taker: Not specified") =
        Item.line (js "Minutes Taker: " ++
          (match m.minutesTaker with | some u => u.name | none => js "Not specified")) := by
      rw [h]
      decide
    rw [he]
    simp [detailsSection]
  · intro p hp hu
    apply mem_build_of_mem_attendees
    simp only [attendeesSection]
    refine List.mem_cons_of_mem _ (List.mem_cons_of_mem _ ?_)
    rw [List.mem_flatten]
    refine ⟨attendeeItems p.1 p.2, List.mem_map_of_mem _ hp, ?_⟩
    have h2 : js ". Unknown - Member" =
        js ". " ++ (js "Unknown" ++ (js " - " ++ js "Member")) := by decide
    rw [h2]
    simp [attendeeItems, hu]
  · intro mins hm it hit ha
    have h4 : actionItemRow it ∈ buildMeetingMinutes m now :=
      actionItemRow_mem_build hm hit
    have he : actionItemRow it =
        Item.tableRow [truncate50 it.task, js "Unassigned",
          jsOr (formatDate it.deadline) (js "N/A"), capitalizeJs it.status] := by
      unfold actionItemRow
      rw [ha]
    rwa [he] at h4

/-- Witness for C6: a meeting with no chairperson, no minutes taker, an
unresolved attendee and an unassigned action item exercises all four
placeholders. -/
theorem minutes_reference_fallbacks_witness :
    Item.line (js "Chairperson: Not specified") ∈
      buildMeetingMinutes unresolvedMeeting 0 ∧
    Item.line (js "Minutes Taker: Not specified") ∈
      buildMeetingMinutes unresolvedMeeting 0 ∧
    Item.line (natStr (0 + 1) ++ js ". Unknown - Member") ∈
      buildMeetingMinutes unresolvedMeeting 0 ∧
    Item.tableRow [truncate50 orphanItem.task, js "Unassigned",
      jsOr (formatDate orphanItem.deadline) (js "N/A"),
      capitalizeJs orphanItem.status] ∈ buildMeetingMinutes unresolvedMeeting 0 :=
  ⟨(minutes_reference_fallbacks unresolvedMeeting 0).1 rfl,
   (minutes_reference_fallbacks unresolvedMeeting 0).2.1 rfl,
   (minutes_reference_fallbacks unresolvedMeeting 0).2.2.1 (0, ghostAttendee)
     (by decide) rfl,
   (minutes_reference_fallbacks unresolvedMeeting 0).2.2.2
     ⟨none, [], [orphanItem], none⟩ rfl orphanItem (by decide) rfl⟩

/-- Claim C8 (code_bug): building the monthly report never yields a
DocumentModel at all — for every store, user list, range, caller and
build time the route fails with `ReferenceError: completed is not
defined`, because the achievements bullets read `completed` outside the
block that declares it — so there are never two monthly documents whose
statistics could be compared across runs; the two report builds that do
complete are deterministic in the claimed sense: the build time enters
the meeting-minutes and member-performance documents only through their
footer sections, so two such builds from unchanged records differ at most
in the footer generation timestamp. -/
theorem monthly_report_never_builds (store : List Meeting)
    (allUsers : List User) (startD endD year month : Int) (caller : UserRef)
    (now : Int) (m : Meeting) (user : User) :
    monthlyReportRoute store allUsers startD endD year month caller now =
      Except.error (js "ReferenceError: completed is not defined") ∧
    (∃ front, ∀ t : Int,
      buildMeetingMinutes m t = front ++ minutesFooterSection m t) ∧
    (∃ front, ∀ t : Int,
      buildPerformance user t = front ++ performanceFooterSection t) := by
  refine ⟨rfl,
    ⟨minutesHeaderSection ++ detailsSection m ++ objectivesSection m ++
      attendeesSection m.attendees ++ agendaSection m.agenda ++
      minutesSection m.minutes ++ approvalsSection m, fun t => ?_⟩,
    ⟨[Item.line (js "SIT STUDENT COUNCIL"), .line (js "PERFORMANCE REPORT"),
      .line (js "MEMBER INFORMATION"),
      .line (js "Name: " ++ user.name),
      .line (js "Role: " ++ user.role),
      .line (js "Student ID: " ++
        (match user.studentId with | some s => s | none => js "N/A")),
      .line (js "Department: " ++
        (match user.department with | some d => d | none => js "N/A")),
      .line (js "Join Date: " ++ formatDate user.joinDate),
      .line (js "PERFORMANCE METRICS")] ++
      performanceMetricRows user.performance ++
      achievementsSection user.performance ++ trendSection, fun t => ?_⟩⟩
  · unfold buildMeetingMinutes
    simp [List.append_assoc]
  · unfold buildPerformance
    simp [List.append_assoc]
